import Mathlib

/-!
Verification of the Landtable gateway (iamawatermelo/landtable) against its
natural-language specification.

The development is a shallow embedding of the Python source into Lean:

* Python `str` and `bytes` values are modelled as `List Char` (all data the
  verified code paths touch is ASCII);
* Python exceptions are modelled with `Except PyErr`, where `PyErr`
  distinguishes the exception classes the embedded code can raise;
* Python `dict`s are modelled as association lists with replace-or-append
  insertion;
* machine-level concerns (the async runtime, database I/O, pydantic JSON
  plumbing) are outside the embedded fragment: the embedding covers the pure
  computational core reachable from the claims (identifier codec, lexer,
  type checker, SQL lowering, target lowering, operation validation, cache
  bookkeeping).
-/

set_option maxRecDepth 4000

/-- Convenience: the character list of a string literal. -/
def chars (s : String) : List Char := s.data

/-- The apostrophe character, used by `pyStrOfBytes`. -/
def squoteC : Char := Char.ofNat 39

/-- The double-quote character. -/
def dquoteC : Char := Char.ofNat 34

/-- The backslash character. -/
def bslashC : Char := Char.ofNat 92

/-- The left-brace character. -/
def lbraceC : Char := Char.ofNat 123

/-- The right-brace character. -/
def rbraceC : Char := Char.ofNat 125

/-- Python exception outcomes of the embedded code. Constructors carry the
message where the source formats one. `lexInvalidChar` is the
`Exception(f"Invalid character at position {pos}")` of `lexer.lex`;
`nonTermination` is an artificial fuel-exhaustion marker used by the
fuelled loops below (each source loop advances by at least one character
or one recursion level per step, so the chosen fuel is never exhausted on
the inputs appearing in this development). -/
inductive PyErr where
  | indexError
  | valueError (message : List Char)
  | typeError (message : List Char)
  | attributeError (message : List Char)
  | notImplementedError
  | runtimeError
  | exception (message : List Char)
  | lexInvalidChar (pos : Nat)
  | formulaTypeException (message : List Char)
  | formulaParseException (message : List Char)
  | apiBadRequest (message : List Char)
  | apiNotFound (message : List Char)
  | nonTermination
  deriving DecidableEq, Repr

/-! ## Identifier codec (`src/landtable/identifiers.py`) -/

/-- Lower-case hexadecimal digit characters, as produced by Python's
`uuid.UUID.hex` (`'%032x' % int`). -/
def hexDigitChar (d : Nat) : Char :=
  match d with
  | 0 => '0' | 1 => '1' | 2 => '2' | 3 => '3' | 4 => '4'
  | 5 => '5' | 6 => '6' | 7 => '7' | 8 => '8' | 9 => '9'
  | 10 => 'a' | 11 => 'b' | 12 => 'c' | 13 => 'd' | 14 => 'e'
  | _ => 'f'

/-- Value of a hexadecimal digit character (upper or lower case), `none` for
a non-hex character; this is the digit handling of Python's `int(s, 16)`. -/
def hexCharVal (c : Char) : Option Nat :=
  if '0' ≤ c ∧ c ≤ '9' then some (c.toNat - 48)
  else if 'a' ≤ c ∧ c ≤ 'f' then some (c.toNat - 87)
  else if 'A' ≤ c ∧ c ≤ 'F' then some (c.toNat - 55)
  else none

/-- Most-significant-first fixed-width hexadecimal rendering of a natural
number, mirroring Python's `'%032x'` formatting used by `UUID.hex`
(`width` is the number of digits). -/
def natToHex : Nat → Nat → List Char
  | 0, _ => []
  | w + 1, n => natToHex w (n / 16) ++ [hexDigitChar (n % 16)]

/-- Accumulating hexadecimal parse of a digit list; `none` when a non-hex
character occurs. -/
def parseHexAux (acc : Nat) : List Char → Option Nat
  | [] => some acc
  | c :: cs =>
    match hexCharVal c with
    | none => none
    | some v => parseHexAux (acc * 16 + v) cs

/-- Embeds Python's `uuid.UUID(hex=s)` on its canonical inputs: exactly 32
hexadecimal digits, yielding the 128-bit integer value. (The Python
constructor additionally strips `urn:`/`uuid:` prefixes, braces and dashes
before checking the length; every claim in this development quantifies only
over plain 32-hex-digit forms, for which the behaviours agree.) -/
def uuidFromHex (s : List Char) : Option Nat :=
  if s.length = 32 then parseHexAux 0 s else none

/-- A Landtable identifier: fields `namespace` and `uuid` of the source
class (identifiers.py lines 27-33); the first is renamed `ns` here because
`namespace` is a Lean keyword. The namespace is stored as an arbitrary
string: `parse_from` installs `to_parse[:3]` through `typing.cast`, which
performs no runtime check. The uuid is the 128-bit integer of the UUID
(`uuid.UUID.__eq__` compares this integer, and `repr` prints its hex). -/
structure Identifier where
  ns : List Char
  uuid : Nat
  deriving DecidableEq, Repr

namespace Identifier

/-- Embeds `Identifier.parse_from` (identifiers.py lines 35-47). The source
first indexes `to_parse[3]` (an `IndexError` when the input is shorter than
4 characters), then checks the delimiter, then the length, then parses the
trailing 32 characters as a UUID. -/
def parse_from (to_parse : List Char) : Except PyErr Identifier :=
  match to_parse[3]? with
  | none => .error .indexError
  | some c =>
    if c ≠ ':' then .error (.valueError (chars "identifier should be delimited with :"))
    else if to_parse.length ≠ 36 then .error (.valueError (chars "identifier has invalid length"))
    else
      match uuidFromHex (to_parse.drop 4) with
      | none => .error (.valueError (chars "badly formed hexadecimal UUID string"))
      | some n => .ok ⟨to_parse.take 3, n⟩

/-- Embeds `Identifier.parse_from_ns` (identifiers.py lines 49-57). -/
def parse_from_ns (nsExpected : List Char) (to_parse : List Char) : Except PyErr Identifier :=
  match parse_from to_parse with
  | .error e => .error e
  | .ok identifier =>
    if identifier.ns ≠ nsExpected then
      .error (.valueError (chars "expected identifier with namespace " ++ nsExpected
        ++ chars " (got " ++ identifier.ns ++ chars ")"))
    else .ok identifier

/-- Embeds `Identifier.__repr__` (identifiers.py lines 59-60): the canonical
string form of an identifier, namespace then colon then 32 hex digits. -/
def repr (i : Identifier) : List Char :=
  i.ns ++ ':' :: natToHex 32 i.uuid

end Identifier

/-- Decidable equality of `Except` outcomes, used to evaluate the embedded
functions at concrete inputs. -/
instance instDecEqExcept {ε α : Type} [DecidableEq ε] [DecidableEq α] :
    DecidableEq (Except ε α) := fun x y =>
  match x, y with
  | .ok a, .ok b =>
    if h : a = b then .isTrue (by rw [h]) else .isFalse (by intro hh; cases hh; exact h rfl)
  | .error a, .error b =>
    if h : a = b then .isTrue (by rw [h]) else .isFalse (by intro hh; cases hh; exact h rfl)
  | .ok _, .error _ => .isFalse (by intro hh; cases hh)
  | .error _, .ok _ => .isFalse (by intro hh; cases hh)

/-- Embeds the validator returned by `identifier_validator_factory`
(identifiers.py lines 106-115): it receives an already-parsed `Identifier`
and rejects a mismatched namespace. -/
def identifier_validator (nsExpected : List Char) (identifier : Identifier) :
    Except PyErr Identifier :=
  if identifier.ns ≠ nsExpected then
    .error (.valueError (chars "expected identifier with namespace " ++ nsExpected
      ++ chars " (got " ++ identifier.ns ++ chars ")"))
  else .ok identifier

theorem natToHex_length (w n : Nat) : (natToHex w n).length = w := by
  induction w generalizing n with
  | zero => rfl
  | succ w ih => simp [natToHex, ih]

theorem parseHexAux_append (acc : Nat) (xs ys : List Char) :
    parseHexAux acc (xs ++ ys)
      = (parseHexAux acc xs).bind (fun a => parseHexAux a ys) := by
  induction xs generalizing acc with
  | nil => rfl
  | cons c cs ih =>
    simp only [List.cons_append, parseHexAux]
    cases hexCharVal c with
    | none => rfl
    | some v => simp [ih]

theorem hexCharVal_hexDigitChar (d : Nat) (h : d < 16) :
    hexCharVal (hexDigitChar d) = some d := by
  interval_cases d <;> decide

theorem parseHexAux_natToHex (w : Nat) :
    ∀ (n acc : Nat), n < 16 ^ w →
      parseHexAux acc (natToHex w n) = some (acc * 16 ^ w + n) := by
  induction w with
  | zero =>
    intro n acc h
    interval_cases n
    simp [natToHex, parseHexAux]
  | succ w ih =>
    intro n acc h
    have hdiv : n / 16 < 16 ^ w := by
      rw [Nat.div_lt_iff_lt_mul (by norm_num)]
      calc n < 16 ^ (w + 1) := h
        _ = 16 ^ w * 16 := by ring
    have hmod : n % 16 < 16 := Nat.mod_lt _ (by norm_num)
    have hrec := Nat.div_add_mod n 16
    rw [natToHex, parseHexAux_append, ih (n / 16) acc hdiv]
    show parseHexAux (acc * 16 ^ w + n / 16) [hexDigitChar (n % 16)] = _
    simp only [parseHexAux, hexCharVal_hexDigitChar (n % 16) hmod, Option.some.injEq]
    calc (acc * 16 ^ w + n / 16) * 16 + n % 16
        = acc * (16 ^ w * 16) + (16 * (n / 16) + n % 16) := by ring
      _ = acc * 16 ^ (w + 1) + n := by rw [hrec, pow_succ]

theorem parse_from_repr (nsv : List Char) (n : Nat) (h3 : nsv.length = 3)
    (h : n < 2 ^ 128) :
    Identifier.parse_from (Identifier.repr ⟨nsv, n⟩) = .ok ⟨nsv, n⟩ := by
  match nsv, h3 with
  | [a, b, c], _ =>
    have h16 : n < 16 ^ 32 := by
      have h2 : (16 : Nat) ^ 32 = 2 ^ 128 := by norm_num
      omega
    have hparse : parseHexAux 0 (natToHex 32 n) = some n := by
      simpa using parseHexAux_natToHex 32 n 0 h16
    simp [Identifier.repr, Identifier.parse_from, uuidFromHex, natToHex_length,
      hparse, List.get?]

theorem parse_from_bad_length (s : List Char) (h : s.length ≠ 36) :
    ∃ e, Identifier.parse_from s = .error e := by
  rcases hg : s[3]? with _ | c
  · exact ⟨.indexError, by simp [Identifier.parse_from, hg]⟩
  · by_cases hc : c = ':'
    · exact ⟨.valueError (chars "identifier has invalid length"),
        by simp [Identifier.parse_from, hg, hc, h]⟩
    · exact ⟨.valueError (chars "identifier should be delimited with :"),
        by simp [Identifier.parse_from, hg, hc]⟩

theorem parse_from_bad_colon (s : List Char) (c : Char) (hg : s[3]? = some c)
    (hc : c ≠ ':') :
    Identifier.parse_from s
      = .error (.valueError (chars "identifier should be delimited with :")) := by
  simp [Identifier.parse_from, hg, hc]

theorem parse_from_ns_mismatch (nsE s : List Char) (i : Identifier)
    (hok : Identifier.parse_from s = .ok i) (hne : i.ns ≠ nsE) :
    Identifier.parse_from_ns nsE s
      = .error (.valueError (chars "expected identifier with namespace " ++ nsE
          ++ chars " (got " ++ i.ns ++ chars ")")) := by
  simp [Identifier.parse_from_ns, hok, hne]

/-- C8: for every identifier whose namespace has the canonical three-letter
length, parsing the canonical string form gives back an equal identifier;
parsing fails for every input of length other than 36 and for every input
whose character at index 3 is not a colon; and namespace-specific parsing
fails whenever the parsed namespace differs from the expected one. -/
theorem c8_identifier_roundtrip :
    (∀ (nsv : List Char) (n : Nat), nsv.length = 3 → n < 2 ^ 128 →
        Identifier.parse_from (Identifier.repr ⟨nsv, n⟩) = .ok ⟨nsv, n⟩)
    ∧ (∀ s : List Char, s.length ≠ 36 → ∃ e, Identifier.parse_from s = .error e)
    ∧ (∀ (s : List Char) (c : Char), s[3]? = some c → c ≠ ':' →
        Identifier.parse_from s
          = .error (.valueError (chars "identifier should be delimited with :")))
    ∧ (∀ (nsE s : List Char) (i : Identifier),
        Identifier.parse_from s = .ok i → i.ns ≠ nsE →
        Identifier.parse_from_ns nsE s
          = .error (.valueError (chars "expected identifier with namespace " ++ nsE
              ++ chars " (got " ++ i.ns ++ chars ")"))) :=
  ⟨parse_from_repr, parse_from_bad_length, parse_from_bad_colon, parse_from_ns_mismatch⟩

/-- Witness for C8, instantiating each conjunct at a concrete input. -/
theorem c8_identifier_roundtrip_witness :
    ((chars "lwk").length = 3 ∧ (5 : Nat) < 2 ^ 128
      ∧ Identifier.parse_from (Identifier.repr ⟨chars "lwk", 5⟩) = .ok ⟨chars "lwk", 5⟩)
    ∧ ((chars "lwk:").length ≠ 36 ∧ ∃ e, Identifier.parse_from (chars "lwk:") = .error e)
    ∧ Identifier.parse_from (chars "lwk=00000000000000000000000000000000")
        = .error (.valueError (chars "identifier should be delimited with :"))
    ∧ Identifier.parse_from_ns (chars "ltb") (chars "lwk:00000000000000000000000000000000")
        = .error (.valueError (chars "expected identifier with namespace ltb (got lwk)")) :=
  ⟨⟨by decide, by norm_num,
      c8_identifier_roundtrip.1 (chars "lwk") 5 (by decide) (by norm_num)⟩,
    ⟨by decide, c8_identifier_roundtrip.2.1 (chars "lwk:") (by decide)⟩,
    c8_identifier_roundtrip.2.2.1 (chars "lwk=00000000000000000000000000000000") '='
      (by decide) (by decide),
    by
      have h := c8_identifier_roundtrip.2.2.2 (chars "ltb")
        (chars "lwk:00000000000000000000000000000000") ⟨chars "lwk", 0⟩
        (by decide) (by decide)
      simpa using h⟩

/-- C9: `Identifier.parse_from` performs no namespace-membership check — any
36-character input with a colon at index 3 and 32 hex digits after it parses
successfully, whatever its three-character prefix; only `parse_from_ns` and
the validators built by `identifier_validator_factory` reject a prefix
differing from the expected namespace. -/
theorem c9_parse_without_namespace_check :
    (∀ (s : List Char) (n : Nat), s.length = 36 → s[3]? = some ':' →
        uuidFromHex (s.drop 4) = some n →
        Identifier.parse_from s = .ok ⟨s.take 3, n⟩)
    ∧ (∀ (nsE : List Char) (i : Identifier), i.ns ≠ nsE →
        identifier_validator nsE i
          = .error (.valueError (chars "expected identifier with namespace " ++ nsE
              ++ chars " (got " ++ i.ns ++ chars ")")))
    ∧ (∀ (nsE s : List Char) (i : Identifier),
        Identifier.parse_from s = .ok i → i.ns ≠ nsE →
        ∃ e, Identifier.parse_from_ns nsE s = .error e) := by
  refine ⟨?_, ?_, ?_⟩
  · intro s n hlen hcolon hhex
    simp [Identifier.parse_from, hcolon, hlen, hhex]
  · intro nsE i hne
    simp [identifier_validator, hne]
  · intro nsE s i hok hne
    exact ⟨_, parse_from_ns_mismatch nsE s i hok hne⟩

/-- Witness for C9: the prefix `xyz` is not one of the five Landtable
namespaces, yet `parse_from` accepts it; the namespace-specific validator
rejects it. -/
theorem c9_parse_without_namespace_check_witness :
    ((chars "xyz:00000000000000000000000000000000").length = 36
      ∧ (chars "xyz:00000000000000000000000000000000")[3]? = some ':'
      ∧ uuidFromHex ((chars "xyz:00000000000000000000000000000000").drop 4) = some 0
      ∧ Identifier.parse_from (chars "xyz:00000000000000000000000000000000")
          = .ok ⟨(chars "xyz:00000000000000000000000000000000").take 3, 0⟩)
    ∧ identifier_validator (chars "lwk") ⟨chars "xyz", 0⟩
        = .error (.valueError (chars "expected identifier with namespace lwk (got xyz)")) :=
  ⟨⟨by decide, by decide, by decide,
      c9_parse_without_namespace_check.1 (chars "xyz:00000000000000000000000000000000") 0
        (by decide) (by decide) (by decide)⟩,
    by
      have h := c9_parse_without_namespace_check.2.1 (chars "lwk") ⟨chars "xyz", 0⟩
        (by decide)
      simpa using h⟩

/-! ## Lexer (`src/landtable/formula/lexer.py`) -/

/-- Token kinds of the formula language (lexer.py lines 18-44). -/
inductive TokenType where
  | SKIP | NUMBER | LPAREN | RPAREN | LBRACE | RBRACE | LBRACK | RBRACK
  | MUL | DIV | PLUS | MINUS | COMMA | DOT | LE | GE | EQ | NE | LT | GT
  | AMPERSAND | ID | STRING | MISMATCH | EOF | VARIABLE_NAME
  deriving DecidableEq, Repr

/-- A token (lexer.py lines 80-93): a kind and the matched text. -/
structure Token where
  kind : TokenType
  value : List Char
  deriving DecidableEq, Repr

/-- Python regex `\d` restricted to ASCII (the formula language is ASCII). -/
def isDigitChar (c : Char) : Bool := '0' ≤ c ∧ c ≤ '9'

/-- Python regex `\w` restricted to ASCII: letters, digits and underscore. -/
def isWordChar (c : Char) : Bool :=
  ('a' ≤ c ∧ c ≤ 'z') || ('A' ≤ c ∧ c ≤ 'Z') || isDigitChar c || c = '_'

/-- A letter or underscore, the leading character of regex `[A-Za-z_]\w*`. -/
def isIdStartChar (c : Char) : Bool :=
  ('a' ≤ c ∧ c ≤ 'z') || ('A' ≤ c ∧ c ≤ 'Z') || c = '_'

/-- Matcher for regex `[ \t\n]+` (SKIP): the maximal nonempty run of
spaces, tabs and newlines. -/
def matchSkip (code : List Char) : Option (List Char) :=
  let run := code.takeWhile (fun c => c = ' ' || c = '\t' || c = '\n')
  if run.isEmpty then none else some run

/-- Matcher for regex `((\d+)\.\d+)(?!\w)` (float NUMBER): maximal digit
run, a dot, a second maximal digit run, not followed by a word character.
(A shorter second run cannot satisfy the negative lookahead either, since a
digit is itself a word character, so greedy matching without backtracking
is faithful.) -/
def matchFloat (code : List Char) : Option (List Char) :=
  let d1 := code.takeWhile isDigitChar
  if d1.isEmpty then none
  else
    match code.drop d1.length with
    | '.' :: rest2 =>
      let d2 := rest2.takeWhile isDigitChar
      if d2.isEmpty then none
      else
        match (rest2.drop d2.length).head? with
        | some c => if isWordChar c then none else some (d1 ++ '.' :: d2)
        | none => some (d1 ++ '.' :: d2)
    | _ => none

/-- Matcher for regex `\d+(?!\w)` (integer NUMBER). -/
def matchInt (code : List Char) : Option (List Char) :=
  let d := code.takeWhile isDigitChar
  if d.isEmpty then none
  else
    match (code.drop d.length).head? with
    | some c => if isWordChar c then none else some d
    | none => some d

/-- Matcher for a single literal character. -/
def matchChar (target : Char) (code : List Char) : Option (List Char) :=
  match code with
  | c :: _ => if c = target then some [c] else none
  | [] => none

/-- Matcher for a two-character literal (`<=`, `>=`, `!=`). -/
def matchTwoChars (t1 t2 : Char) (code : List Char) : Option (List Char) :=
  match code with
  | c1 :: c2 :: _ => if c1 = t1 ∧ c2 = t2 then some [c1, c2] else none
  | _ => none

/-- Matcher for regex `[A-Za-z_]\w*` (ID). -/
def matchId (code : List Char) : Option (List Char) :=
  match code with
  | c :: rest =>
    if isIdStartChar c then some (c :: rest.takeWhile isWordChar) else none
  | [] => none

/-- Body scan of regex `"(?:\\.|[^"\\])*"` after the opening quote: either a
backslash followed by any character other than a newline, or any character
other than a quote or backslash, repeated up to the first unescaped closing
quote. Returns the consumed text including the closing quote. -/
def stringBody : List Char → Option (List Char)
  | [] => none
  | c :: rest =>
    if c = dquoteC then some [c]
    else if c = bslashC then
      match rest with
      | [] => none
      | c2 :: rest2 =>
        if c2 = '\n' then none
        else (stringBody rest2).map (fun t => c :: c2 :: t)
    else (stringBody rest).map (fun t => c :: t)

/-- Matcher for regex `"(?:\\.|[^"\\])*"` (STRING): the matched text
includes both quotes. -/
def matchString (code : List Char) : Option (List Char) :=
  match code with
  | c :: rest =>
    if c = dquoteC then (stringBody rest).map (fun t => c :: t) else none
  | [] => none

/-- Matcher for regex `.` (MISMATCH): any single character except a
newline. -/
def matchMismatch (code : List Char) : Option (List Char) :=
  match code with
  | c :: _ => if c = '\n' then none else some [c]
  | [] => none

/-- Embeds `token_specification` (lexer.py lines 48-77), in source order;
each pattern is an anchored matcher on the remaining input. -/
def token_specification : List (TokenType × (List Char → Option (List Char))) :=
  [(.SKIP, matchSkip),
   (.NUMBER, matchFloat),
   (.NUMBER, matchInt),
   (.LPAREN, matchChar '('),
   (.RPAREN, matchChar ')'),
   (.LBRACE, matchChar lbraceC),
   (.RBRACE, matchChar rbraceC),
   (.LBRACK, matchChar '['),
   (.RBRACK, matchChar ']'),
   (.MUL, matchChar '*'),
   (.DIV, matchChar '/'),
   (.PLUS, matchChar '+'),
   (.MINUS, matchChar '-'),
   (.COMMA, matchChar ','),
   (.DOT, matchChar '.'),
   (.LE, matchTwoChars '<' '='),
   (.GE, matchTwoChars '>' '='),
   (.EQ, matchChar '='),
   (.NE, matchTwoChars '!' '='),
   (.LT, matchChar '<'),
   (.GT, matchChar '>'),
   (.AMPERSAND, matchChar '&'),
   (.ID, matchId),
   (.STRING, matchString),
   (.MISMATCH, matchMismatch)]

/-- First specification entry whose pattern matches, as in the `for` loop of
`lex` (lexer.py lines 116-122). -/
def firstTokenMatch : List (TokenType × (List Char → Option (List Char))) →
    List Char → Option (TokenType × List Char)
  | [], _ => none
  | (kind, matcher) :: specs, code =>
    match matcher code with
    | some text => some (kind, text)
    | none => firstTokenMatch specs code

/-- Embeds the braced-variable scan of `lex` (lexer.py lines 105-115): after
an opening brace, characters are accumulated until a closing brace, a
backslash escaping the following character. Reading `code[pos]` past the end
of the input is an `IndexError`. Returns the accumulated name and the input
remaining after the closing brace. -/
def braceScan : List Char → Except PyErr (List Char × List Char)
  | [] => .error .indexError
  | c :: rest =>
    if c = rbraceC then .ok ([], rest)
    else if c = bslashC then
      match rest with
      | [] => .error .indexError
      | c2 :: rest2 =>
        match braceScan rest2 with
        | .error e => .error e
        | .ok (inner, rest3) => .ok (c2 :: inner, rest3)
    else
      match braceScan rest with
      | .error e => .error e
      | .ok (inner, rest3) => .ok (c :: inner, rest3)

/-- The `while pos < len(code)` loop of `lex` (lexer.py lines 101-126),
fuelled: every iteration consumes at least one character, so fuel exceeding
the input length is never exhausted. `pos` tracks the byte position for the
`Invalid character at position` error. -/
def lexAux : Nat → Nat → List Char → Except PyErr (List Token)
  | 0, _, _ => .error .nonTermination
  | _ + 1, _, [] => .ok []
  | fuel + 1, pos, c :: rest =>
    if c = lbraceC then
      match braceScan rest with
      | .error e => .error e
      | .ok (inner, rest2) =>
        match lexAux fuel (pos + 1 + (rest.length - rest2.length)) rest2 with
        | .error e => .error e
        | .ok toks => .ok (⟨.VARIABLE_NAME, inner⟩ :: toks)
    else
      match firstTokenMatch token_specification (c :: rest) with
      | none => .error (.lexInvalidChar pos)
      | some (kind, text) =>
        match lexAux fuel (pos + text.length) ((c :: rest).drop text.length) with
        | .error e => .error e
        | .ok toks =>
          .ok (if kind = .SKIP then toks else ⟨kind, text⟩ :: toks)

/-- Embeds `lex` (lexer.py lines 96-126). -/
def lex (code : List Char) : Except PyErr (List Token) :=
  lexAux (code.length + 1) 0 code

/-- C7: the claim states that an unmatched character makes `lex` fail with a
lex error reporting the byte position. In the source, the catch-all
`MISMATCH` pattern `.` matches any character other than a newline (and
newlines are matched by `SKIP`), and the loop appends `MISMATCH` tokens like
any other kind, so the `Invalid character at position` branch is
unreachable: on `"@"` — a character matched by no genuine token pattern —
`lex` silently returns a `MISMATCH` token instead of raising. -/
theorem c7_lex_mismatch_token :
    lex (chars "@") = .ok [⟨.MISMATCH, chars "@"⟩]
    ∧ ∀ pos, lex (chars "@") ≠ .error (.lexInvalidChar pos) := by
  refine ⟨by decide, ?_⟩
  intro pos h
  rw [show lex (chars "@") = .ok [⟨.MISMATCH, chars "@"⟩] from by decide] at h
  exact Except.noConfusion h

theorem braceScan_no_close (l : List Char) (h : rbraceC ∉ l) :
    braceScan l = .error .indexError := by
  suffices H : ∀ (n : Nat) (l : List Char), l.length ≤ n → rbraceC ∉ l →
      braceScan l = .error .indexError from H l.length l le_rfl h
  intro n
  induction n with
  | zero =>
    intro l hl _
    have hnil : l = [] := List.length_eq_zero.mp (Nat.le_zero.mp hl)
    subst hnil
    rfl
  | succ n ih =>
    intro l hl hmem
    match l with
    | [] => rfl
    | c :: rest =>
      have hc : ¬c = rbraceC := fun hEq => hmem (by simp [hEq])
      by_cases hb : c = bslashC
      · subst hb
        match rest with
        | [] =>
          have hbr : ¬bslashC = rbraceC := by decide
          simp [braceScan, hbr]
        | c2 :: rest2 =>
          have hr : rbraceC ∉ rest2 := fun hm => hmem (by simp [hm])
          have hlen : rest2.length ≤ n := by simp at hl; omega
          have hbr : ¬bslashC = rbraceC := by decide
          simp [braceScan, hbr, ih rest2 hlen hr]
      · have hr : rbraceC ∉ rest := fun hm => hmem (by simp [hm])
        have hlen : rest.length ≤ n := by simp at hl; omega
        rw [braceScan.eq_def]
        simp [hc, hb, ih rest hlen hr]

/-- C10 (counterexample to the claim as stated): the input `"{"` — a
three-character input containing `{` with no `}` anywhere — does not make
`lex` read out of bounds: the brace scan is only entered when the main loop
reaches a `{`, and here the string-literal pattern consumes the brace, so
`lex` returns a token list. -/
theorem c10_lex_string_brace_counterexample :
    lbraceC ∈ [dquoteC, lbraceC, dquoteC]
    ∧ rbraceC ∉ [dquoteC, lbraceC, dquoteC]
    ∧ lex [dquoteC, lbraceC, dquoteC]
        = .ok [⟨.STRING, [dquoteC, lbraceC, dquoteC]⟩] := by
  refine ⟨by decide, by decide, by decide⟩

/-- C10 (amended): whenever the scan loop of `lex` reaches an opening brace
with no closing brace in the remaining input — in particular on every input
beginning with `{` and containing no `}` — `lex` neither returns a token
list nor raises the `Invalid character` lex error: the braced-variable scan
reads past the end of the input and fails with an out-of-bounds
`IndexError`. -/
theorem c10_lex_unterminated_brace (rest : List Char) (h : rbraceC ∉ rest) :
    lex (lbraceC :: rest) = .error .indexError := by
  show lexAux ((lbraceC :: rest).length + 1) 0 (lbraceC :: rest) = .error .indexError
  simp only [List.length_cons]
  simp [lexAux, braceScan_no_close rest h]

/-- Witness for C10 (amended), at the claim's own example input `{name`. -/
theorem c10_lex_unterminated_brace_witness :
    rbraceC ∉ chars "name" ∧ lex (lbraceC :: chars "name") = .error .indexError :=
  ⟨by decide, c10_lex_unterminated_brace (chars "name") (by decide)⟩

/-! ## Formula AST and types (`src/landtable/formula/parse.py`) -/

/-- The concrete formula types (parse.py lines 30-38). -/
inductive ASTConcreteType where
  | NUMBER | STRING | DATETIME | BOOLEAN
  deriving DecidableEq, Repr

/-- The formula type lattice: `ASTConcreteType`, `ASTListType` and
`ASTTypeUnion` (parse.py lines 25-84). Union members are kept as a
deduplicated list in first-insertion order; the source stores them in a
`set` annotated `Set[ASTConcreteType]` (and only concrete members arise in
this development), so only membership and subset queries are observable. -/
inductive ASTType where
  | concrete (t : ASTConcreteType)
  | list (inner : ASTType)
  | union (members : List ASTConcreteType)
  deriving DecidableEq, Repr

/-- Embeds the `is_subset` methods (parse.py lines 26-27, 40-44, 75-84),
dispatched on the type of the left-hand side as Python does:
a concrete type is a subset of a union iff it is a member, and of anything
else iff it equals it; a union is a subset of a union iff its members are,
and of a non-union only when it is a singleton whose member equals it;
`ASTListType` does not override the base method, which raises
`NotImplementedError`. -/
def ASTType.is_subset : ASTType → ASTType → Except PyErr Bool
  | .concrete a, .union ms => .ok (ms.contains a)
  | .concrete a, .concrete b => .ok (a = b)
  | .concrete _, .list _ => .ok false
  | .union ms, .union ns => .ok (ms.all (fun m => ns.contains m))
  | .union ms, rhs =>
    match ms, rhs with
    | [m], .concrete b => .ok (m = b)
    | _, _ => .ok false
  | .list _, _ => .error .notImplementedError

/-- Insertion into the member set of a union, preserving first-insertion
order. -/
def insertConcrete (m : ASTConcreteType) (acc : List ASTConcreteType) :
    List ASTConcreteType :=
  if acc.contains m then acc else acc ++ [m]

/-- Embeds the `ASTTypeUnion` constructor (parse.py lines 64-73): union
members are flattened into the set, other members added directly. (A
list-typed member would be stored untyped in the source; none arises in
this development, since the subset check the type checker performs on a
list-typed array element raises `NotImplementedError` first.) -/
def unionMembers (ts : List ASTType) : List ASTConcreteType :=
  ts.foldl
    (fun acc t =>
      match t with
      | .concrete c => insertConcrete c acc
      | .union ms => ms.foldl (fun a m => insertConcrete m a) acc
      | .list _ => acc)
    []

/-- Embeds `ASTTypeEnvironment` (parse.py lines 87-92); the source field
`variables` is spelled `vars` here (reserved word). A function validator
receives the resolved argument types and returns the call's result type (the
source also passes the call node itself, used only for its name in error
messages and for the cast loop whose result is discarded — see
`castHelper`). -/
structure ASTTypeEnvironment where
  vars : List (List Char × ASTType)
  functions : List (List Char × (List ASTType → Except PyErr ASTType))
  id_field : List Char
  created_time_field : List Char

/-- The subset-check loop of the shared `cast` helper and of
`Array.resolve_type`: each argument type is checked against the expected
type (an error from `is_subset` propagates), and nothing else is
observable because the computed `Cast`-wrapped node lists are discarded by
the source. -/
def castLoop : List (ASTType × ASTType) → Except PyErr Unit
  | [] => .ok ()
  | (a, e) :: rest =>
    match a.is_subset e with
    | .error err => .error err
    | .ok _ => castLoop rest

/-- Embeds the shared `cast` helper of the validators
(formula/sql/functions.py lines 41-51; named `castHelper` here because
`cast` is taken by Lean). The source raises on an arity mismatch (with a
message that hard-codes `0`), then builds `new_nodes` wrapping each
argument whose type is not a subtype of the expected type in a `Cast` —
and then drops the list on the floor: `self.args` is never reassigned, so
only the arity error and `is_subset` errors are observable. -/
def castHelper (name : List Char) (args expected : List ASTType) :
    Except PyErr Unit :=
  if args.length ≠ expected.length then
    .error (.formulaTypeException (name ++ chars " expected 0 arguments, got "
      ++ (Nat.repr args.length).data))
  else castLoop (args.zip expected)

/-- Embeds `created_time_validator` (functions.py lines 54-62). -/
def created_time_validator (args : List ASTType) : Except PyErr ASTType :=
  match castHelper (chars "CREATED_TIME") args [] with
  | .error e => .error e
  | .ok _ => .ok (.concrete .DATETIME)

/-- Embeds `datetime_diff_validator` (functions.py lines 72-84). -/
def datetime_diff_validator (args : List ASTType) : Except PyErr ASTType :=
  match castHelper (chars "DATETIME_DIFF") args
      [.concrete .DATETIME, .concrete .DATETIME, .concrete .STRING] with
  | .error e => .error e
  | .ok _ => .ok (.concrete .NUMBER)

/-- Embeds `now_validator` (functions.py lines 124-132). -/
def now_validator (args : List ASTType) : Except PyErr ASTType :=
  match castHelper (chars "NOW") args [] with
  | .error e => .error e
  | .ok _ => .ok (.concrete .DATETIME)

/-- Embeds the `SQL_FUNCTIONS` registry (functions.py line 23), populated by
the `type_validator` decorators in source order. -/
def SQL_FUNCTIONS : List (List Char × (List ASTType → Except PyErr ASTType)) :=
  [(chars "CREATED_TIME", created_time_validator),
   (chars "DATETIME_DIFF", datetime_diff_validator),
   (chars "NOW", now_validator)]

/-- The formula AST (parse.py lines 95-351). `UnOp` carries no operator
field: its constructor asserts the operator is `MINUS`. `Variable` is
renamed `var` (Lean keyword). Number literals hold the value of Python's
`float(...)`, modelled as a rational (no arithmetic is ever performed on
them). -/
inductive ASTNode where
  | cast (inner : ASTNode) (type : ASTType)
  | binOp (left : ASTNode) (op : TokenType) (right : ASTNode)
  | unOp (right : ASTNode)
  | number (value : Rat)
  | string (value : List Char)
  | var (name : List Char)
  | functionCall (name : List Char) (args : List ASTNode)
  | array (elements : List ASTNode)

mutual

/-- Node count of an AST, used as a fuel bound for the embedded recursive
passes. -/
def ASTNode.size : ASTNode → Nat
  | .cast inner _ => inner.size + 1
  | .binOp l _ r => l.size + r.size + 1
  | .unOp r => r.size + 1
  | .number _ => 1
  | .string _ => 1
  | .var _ => 1
  | .functionCall _ args => ASTNode.sizeList args + 1
  | .array elems => ASTNode.sizeList elems + 1

/-- Total node count of a list of ASTs. -/
def ASTNode.sizeList : List ASTNode → Nat
  | [] => 0
  | x :: xs => x.size + ASTNode.sizeList xs

end

/-- Embeds the `resolve_type` methods (parse.py lines 101-340) as a function
from the node to the mutated node and its resolved type. In-place `Cast`
insertion becomes returning the rewritten node. Fuel bounds the call depth
(the source recursion terminates because re-resolving an already-rewritten
subtree inserts no further casts; the wrapper `resolve_type` passes fuel
exceeding any actual depth). Faithful details: `Cast.resolve_type` returns
its own type without descending; `BinOp` with `=` takes the resultant type
from a first resolution of the right operand and later re-resolves it, as
the source does at lines 166 and 173; an operator outside the handled set
hits the bare `raise` (a `RuntimeError`); `FunctionCall` looks up the
validator before resolving arguments (argument lists are resolved left to
right, an error aborting the walk, as the source generator expressions do);
`Array` computes its element casts
and discards them (parse.py lines 330-338 build `new_elements` but never
assign `self.elements`). -/
def resolveType : Nat → ASTTypeEnvironment → ASTNode →
    Except PyErr (ASTNode × ASTType)
  | 0, _, _ => .error .nonTermination
  | fuel + 1, env, node =>
    match node with
    | .cast inner t => .ok (.cast inner t, t)
    | .number v => .ok (.number v, .concrete .NUMBER)
    | .string v => .ok (.string v, .concrete .STRING)
    | .var name =>
      match env.vars.lookup name with
      | some t => .ok (.var name, t)
      | none =>
        .error (.formulaTypeException (chars "variable " ++ name
          ++ chars " does not exist"))
    | .unOp right =>
      match resolveType fuel env right with
      | .error e => .error e
      | .ok (r1, rt) =>
        match rt.is_subset (.concrete .NUMBER) with
        | .error e => .error e
        | .ok sub =>
          .ok (.unOp (if sub then r1 else .cast r1 (.concrete .NUMBER)),
            .concrete .NUMBER)
    | .binOp l op r =>
      match
        ((match op with
          | .MUL | .DIV | .PLUS | .MINUS | .LE | .GE | .NE | .LT | .GT =>
            .ok (.concrete .NUMBER, none)
          | .AMPERSAND => .ok (.concrete .STRING, none)
          | .EQ =>
            match resolveType fuel env r with
            | .error e => .error e
            | .ok (r1, t) => .ok (t, some r1)
          | _ => .error .runtimeError) :
          Except PyErr (ASTType × Option ASTNode)) with
      | .error e => .error e
      | .ok (resultant, rResolved) =>
        match resolveType fuel env l with
        | .error e => .error e
        | .ok (l1, lt) =>
          match lt.is_subset resultant with
          | .error e => .error e
          | .ok lsub =>
            match resolveType fuel env (rResolved.getD r) with
            | .error e => .error e
            | .ok (r2, rt) =>
              match rt.is_subset resultant with
              | .error e => .error e
              | .ok rsub =>
                let l2 := if lsub then l1 else .cast l1 resultant
                let r3 := if rsub then r2 else .cast r2 resultant
                if op = .EQ ∨ op = .LE ∨ op = .GE ∨ op = .NE ∨ op = .LT
                    ∨ op = .GT then
                  .ok (.binOp l2 op r3, .concrete .BOOLEAN)
                else
                  .ok (.binOp l2 op r3, resultant)
    | .functionCall name args =>
      match env.functions.lookup name with
      | some validator =>
        match args.mapM (fun a => resolveType fuel env a) with
        | .error e => .error e
        | .ok resolved =>
          match validator (resolved.map (fun p => p.2)) with
          | .error e => .error e
          | .ok t => .ok (.functionCall name (resolved.map (fun p => p.1)), t)
      | none =>
        .error (.formulaTypeException (chars "function " ++ name
          ++ chars " does not exist"))
    | .array elems =>
      match elems.mapM (fun a => resolveType fuel env a) with
      | .error e => .error e
      | .ok resolved =>
        let typ : ASTType := .list (.union (unionMembers (resolved.map (fun p => p.2))))
        match castLoop ((resolved.map (fun p => p.2)).map (fun t => (t, typ))) with
        | .error e => .error e
        | .ok _ => .ok (.array (resolved.map (fun p => p.1)), typ)

/-- The `resolve_type` entry point on a whole tree, with fuel exceeding the
recursion depth of any execution on the tree. -/
def resolve_type (env : ASTTypeEnvironment) (node : ASTNode) :
    Except PyErr (ASTNode × ASTType) :=
  resolveType (node.size + 1) env node

/-! ## SQL lowering (`src/landtable/formula/sql/__init__.py`) -/

/-- SQL parameter values collected by the lowering (`values.append`): number
and string literals from the formula, and the row uuid appended by
`parse_target`. -/
inductive SqlValue where
  | num (value : Rat)
  | str (value : List Char)
  | uuid (value : Nat)
  deriving DecidableEq, Repr

/-- Embeds the `token_map` of `to_sql.recurse` (sql/__init__.py lines
58-68). Note: `<=` lowers to `>=` and `>=` to `<=`, while `<` and `>` lower
to themselves; `!=` and `&` are absent and fall through to the
`unsupported binop` error. -/
def token_map : TokenType → Option (List Char)
  | .MUL => some (chars "*")
  | .DIV => some (chars "/")
  | .PLUS => some (chars "+")
  | .MINUS => some (chars "-")
  | .EQ => some (chars "=")
  | .LT => some (chars "<")
  | .GT => some (chars ">")
  | .LE => some (chars ">=")
  | .GE => some (chars "<=")
  | _ => none

/-- The unit literals accepted by `datetime_diff_implementation`
(functions.py lines 101-118). -/
def datetimeDiffUnits : List (List Char) :=
  [chars "years", chars "months", chars "days", chars "hours",
   chars "minutes", chars "seconds", chars "milliseconds", chars "quarters",
   chars "ms", chars "s", chars "m", chars "h", chars "w", chars "M",
   chars "Q", chars "y"]

/-- Embeds the `recurse` closure of `to_sql` (sql/__init__.py lines 44-102)
together with the registered function implementations it dispatches to
(`SQL_FUNCTION_IMPLS`, functions.py: `CREATED_TIME` lowers to the
parenthesised `created_time_field`, `NOW` to `now()`, `DATETIME_DIFF` to an
`EXTRACT(... FROM AGE(...))` after checking that its third argument is a
`String` literal with an allowed unit). The mutated `values` list is
threaded explicitly; `$N` placeholders are 1-indexed by insertion order.
`Array` has no case in the source `recurse` and falls to the
`unsupported node type` error; `UnOp` always carries `MINUS` (asserted at
construction). Fuel bounds the recursion depth. -/
def recurseSql : Nat → ASTTypeEnvironment → ASTNode → List SqlValue →
    Except PyErr (List Char × List SqlValue)
  | 0, _, _, _ => .error .nonTermination
  | fuel + 1, env, node, values =>
    match node with
    | .cast inner t =>
      match t with
      | .concrete ct =>
        match recurseSql fuel env inner values with
        | .error e => .error e
        | .ok (s, v) =>
          match ct with
          | .STRING => .ok (chars "cast(" ++ s ++ chars " as text)", v)
          | .NUMBER => .ok (chars "cast(" ++ s ++ chars " as double precision)", v)
          | .BOOLEAN => .ok (chars "cast(" ++ s ++ chars " as boolean)", v)
          | .DATETIME => .ok (chars "cast(" ++ s ++ chars " as timestamp)", v)
      | _ => .error (.formulaTypeException (chars "unsupported cast"))
    | .binOp l op r =>
      match token_map op with
      | some opStr =>
        match recurseSql fuel env l values with
        | .error e => .error e
        | .ok (ls, v1) =>
          match recurseSql fuel env r v1 with
          | .error e => .error e
          | .ok (rs, v2) =>
            .ok (chars "(" ++ ls ++ chars " " ++ opStr ++ chars " " ++ rs
              ++ chars ")", v2)
      | none => .error (.formulaTypeException (chars "unsupported binop"))
    | .unOp right =>
      match recurseSql fuel env right values with
      | .error e => .error e
      | .ok (s, v) => .ok (chars "(-" ++ s ++ chars ")", v)
    | .number val =>
      let v := values ++ [.num val]
      .ok ('$' :: (Nat.repr v.length).data, v)
    | .string sv =>
      let v := values ++ [.str sv]
      .ok ('$' :: (Nat.repr v.length).data, v)
    | .var name => .ok (name, values)
    | .functionCall name args =>
      if name = chars "CREATED_TIME" then
        .ok (chars "(" ++ env.created_time_field ++ chars ")", values)
      else if name = chars "DATETIME_DIFF" then
        match args with
        | first :: second :: unit :: _ =>
          match unit with
          | .string uv =>
            if datetimeDiffUnits.contains uv then
              match recurseSql fuel env first values with
              | .error e => .error e
              | .ok (s1, v1) =>
                match recurseSql fuel env second v1 with
                | .error e => .error e
                | .ok (s2, v2) =>
                  .ok (chars "EXTRACT(" ++ uv ++ chars " FROM AGE(" ++ s1
                    ++ chars ", " ++ s2 ++ chars "))", v2)
            else .error (.formulaTypeException (chars "invalid unit " ++ uv))
          | _ =>
            .error (.formulaTypeException
              (chars "DATETIME_DIFF only supports literals as a third argument"))
        | _ =>
          .error (.typeError
            (chars "datetime_diff_implementation missing required positional arguments"))
      else if name = chars "NOW" then .ok (chars "now()", values)
      else
        .error (.formulaTypeException
          (chars "internal error: no function implementation associated with "
            ++ name))
    | .array _ => .error (.formulaTypeException (chars "unsupported node type"))

/-- Embeds `to_sql` (sql/__init__.py lines 29-114): type-check the formula
(`formula.ast` is represented by the AST itself), reject non-concrete
result types, lower the rewritten tree, and wrap the fragment according to
the result type (`NUMBER` compares against 0, `STRING` against an empty
string literal, `BOOLEAN` is used bare, anything else — `DATETIME` — hits
the final catch-all error). -/
def to_sql (ast : ASTNode) (env : ASTTypeEnvironment) :
    Except PyErr (List Char × List SqlValue) :=
  match resolve_type env ast with
  | .error e => .error e
  | .ok (ast1, typ) =>
    match typ with
    | .concrete ct =>
      match recurseSql (ast1.size + 1) env ast1 [] with
      | .error e => .error e
      | .ok (expr, values) =>
        match ct with
        | .NUMBER => .ok (expr ++ chars " <> 0", values)
        | .STRING => .ok (expr ++ chars " <> " ++ [dquoteC, dquoteC], values)
        | .BOOLEAN => .ok (expr, values)
        | .DATETIME =>
          .error (.formulaTypeException
            (chars "do not know how to handle return type"))
    | _ =>
      .error (.formulaTypeException
        (chars "only formulae returning concrete types, like number or string, are supported"))

/-- The type environment of the lowering examples: variables `{age: NUMBER}`,
the built-in function registry, `id_field = "id"` and
`created_time_field = "created"`. -/
def exampleEnv : ASTTypeEnvironment :=
  ⟨[(chars "age", .concrete .NUMBER)], SQL_FUNCTIONS, chars "id", chars "created"⟩

/-- C4: the claim states that after `resolve_type` every required coercion
appears as an explicit `Cast` node — in particular around array elements not
a subtype of the array's `List` type and around function-call arguments of
unexpected type. The code computes those wrappers and discards them:
`Array.resolve_type` builds `new_elements` without assigning
`self.elements` (parse.py lines 330-338), and the validators' shared `cast`
helper builds `new_nodes` without assigning `self.args` (functions.py lines
45-51). Evaluating the embedded checker shows `NUMBER` is not a subtype of
the required types, yet the array element and the `DATETIME_DIFF` arguments
come back unwrapped. -/
theorem c4_resolve_type_discards_casts :
    ASTType.is_subset (.concrete .NUMBER) (.list (.union [.NUMBER])) = .ok false
    ∧ resolve_type exampleEnv (.array [.number 1])
        = .ok (.array [.number 1], .list (.union [.NUMBER]))
    ∧ ASTType.is_subset (.concrete .NUMBER) (.concrete .DATETIME) = .ok false
    ∧ resolve_type exampleEnv (.functionCall (chars "DATETIME_DIFF")
          [.number 1, .number 2, .string (chars "days")])
        = .ok (.functionCall (chars "DATETIME_DIFF")
            [.number 1, .number 2, .string (chars "days")], .concrete .NUMBER) :=
  ⟨rfl, rfl, rfl, rfl⟩

/-- C6 (counterexample): lowering `CREATED_TIME() > NOW()` against
`exampleEnv` does not produce text equivalent to `((created) <= now())` —
the emitted fragment compares with `>` (the token map inverts only `<=` and
`>=`) and wraps both `DATETIME` operands in casts to double precision. -/
theorem c6_lowering_counterexample :
    to_sql (.binOp (.functionCall (chars "CREATED_TIME") []) .GT
        (.functionCall (chars "NOW") [])) exampleEnv
      = .ok (chars "(cast((created) as double precision) > cast(now() as double precision))", [])
    ∧ chars "(cast((created) as double precision) > cast(now() as double precision))"
        ≠ chars "((created) <= now())"
    ∧ token_map .GT = some (chars ">") :=
  ⟨rfl, by decide, rfl⟩

/-- C6 (amended): lowering `CREATED_TIME() > NOW()` against the environment
with `created_time_field = "created"` yields exactly
`(cast((created) as double precision) > cast(now() as double precision))`
and an empty parameter vector: `>` lowers to `>` (only `<=` and `>=` are
swapped by the token map), and the two `DATETIME` operands are wrapped in
`Cast(NUMBER)` by `BinOp.resolve_type` and lowered as casts to
double precision. -/
theorem c6_lowering_created_time_now :
    to_sql (.binOp (.functionCall (chars "CREATED_TIME") []) .GT
        (.functionCall (chars "NOW") [])) exampleEnv
      = .ok (chars "(cast((created) as double precision) > cast(now() as double precision))", []) :=
  rfl

/-! ## Transaction operations and targets (`src/landtable/backends/abstract.py`,
`src/landtable/backends/postgres_backend.py`) -/

/-- The `fail_type` literals of `FailureStrategy` (abstract.py lines
133-143). -/
inductive FailType where
  | eq | neq | gt | ge | lt | le
  deriving DecidableEq, Repr

/-- Embeds `FailureStrategy` (abstract.py lines 126-143); `order_by` is a
`Formula`, represented by its AST. -/
structure FailureStrategy where
  exec_target : Option Int
  order_by : ASTNode
  fail_type : Option FailType

/-- Embeds the target union (abstract.py lines 94-109). `parse_target`
consults only `RowTarget.id` and `FormulaTarget.formula` (a `Formula`,
represented by its AST); the inherited `BaseTarget` fields are untouched by
every verified path and are omitted. -/
inductive Target where
  | rowTarget (id : Identifier)
  | formulaTarget (formula : ASTNode)

/-- Embeds `parse_target` (postgres_backend.py lines 50-57). For a
`RowTarget`, the row uuid is appended to `values` and the predicate
`{id_field} = ${len(values)}` is returned. For a `FormulaTarget`, the
source evaluates `to_sql(target.formula, environment, values)` — but
`to_sql` (sql/__init__.py line 29) accepts exactly two positional
arguments, so in Python the call itself raises `TypeError` before any
lowering runs and before anything is appended to `values`. -/
def parse_target (target : Target) (environment : ASTTypeEnvironment)
    (values : List SqlValue) : Except PyErr (List Char × List SqlValue) :=
  match target with
  | .rowTarget i =>
    let values1 := values ++ [.uuid i.uuid]
    .ok (environment.id_field ++ chars " = $" ++ (Nat.repr values1.length).data,
      values1)
  | .formulaTarget _ =>
    .error (.typeError (chars "to_sql() takes 2 positional arguments but 3 were given"))

/-- C1: the claim states that lowering a target always yields a string
predicate, with a `FormulaTarget`'s formula lowered per the SQL lowering
and its parameters appended to the shared values list. The `RowTarget`
half holds; the `FormulaTarget` half does not: `parse_target` passes three
arguments to the two-argument `to_sql`, which raises `TypeError` before
any lowering. -/
theorem c1_parse_target :
    (∀ (environment : ASTTypeEnvironment) (values : List SqlValue)
        (i : Identifier),
      parse_target (.rowTarget i) environment values
        = .ok (environment.id_field ++ chars " = $"
            ++ (Nat.repr (values.length + 1)).data, values ++ [.uuid i.uuid]))
    ∧ ∀ (environment : ASTTypeEnvironment) (values : List SqlValue)
        (f : ASTNode),
      parse_target (.formulaTarget f) environment values
        = .error (.typeError
            (chars "to_sql() takes 2 positional arguments but 3 were given")) := by
  constructor
  · intro environment values i
    simp [parse_target]
  · intro environment values f
    rfl

/-- Embeds the `Fetch` operation record (abstract.py lines 146-157);
`Delete` (lines 160-166) declares exactly the same fields, so the same
structure serves both. `sort` is a `Formula`, represented by its AST. -/
structure FetchOp where
  target : Target
  limit : Int
  sort : ASTNode
  fields : Option (List (List Char))
  failure_strategy : FailureStrategy

/-- The attribute read `op.execTarget` performed by
`PostgresBackend._exec_op` (postgres_backend.py line 93). `Fetch` and
`Delete` declare the fields `type, target, limit, sort, fields,
failure_strategy` — there is no `execTarget` attribute (the intended datum
lives at `failure_strategy.exec_target`), so pydantic's
`BaseModel.__getattr__` raises `AttributeError` when the expression is
evaluated. -/
def fetchAttr_execTarget (_op : FetchOp) : Except PyErr (Option Int) :=
  .error (.attributeError (chars "execTarget"))

/-- The attribute read `op.failType` (postgres_backend.py line 93): `Fetch`
and `Delete` declare no `failType` attribute either (the intended datum is
`failure_strategy.fail_type`). -/
def fetchAttr_failType (_op : FetchOp) : Except PyErr (Option FailType) :=
  .error (.attributeError (chars "failType"))

/-- Embeds the failure-strategy validation at the top of
`PostgresBackend._exec_op` for `Fetch`/`Delete` (postgres_backend.py lines
92-96): `if op.execTarget is not None and op.failType is None: raise
APIBadRequestException(...)`. Python's `and` evaluates `op.execTarget`
first, so the `AttributeError` from the missing attribute pre-empts the
intended check; the continuation after the first read is dead code kept to
mirror the source. -/
def exec_op_failure_validation (op : FetchOp) : Except PyErr Unit :=
  match fetchAttr_execTarget op with
  | .error e => .error e
  | .ok execTargetVal =>
    if execTargetVal.isSome then
      match fetchAttr_failType op with
      | .error e => .error e
      | .ok failTypeVal =>
        if failTypeVal.isNone then
          .error (.apiBadRequest
            (chars "execTarget specified but no operator to compare with"))
        else .ok ()
    else .ok ()

/-- C3: the claim states that a `Fetch`/`Delete` whose `failure_strategy`
has `exec_target` set but `fail_type` unset fails with BAD_REQUEST (400)
before any SQL is issued. The code reads the nonexistent attributes
`op.execTarget`/`op.failType` instead of `failure_strategy.exec_target`/
`fail_type`, so on such an operation (here: `exec_target = 1`,
`fail_type = None`) execution raises `AttributeError` — a 500-class
internal error — and the BAD_REQUEST branch is unreachable for every
operation. -/
theorem c3_exec_target_check_attribute_error :
    exec_op_failure_validation
        ⟨.rowTarget ⟨chars "lrw", 0⟩, 1, .number 1, none,
          ⟨some 1, .number 1, none⟩⟩
      = .error (.attributeError (chars "execTarget"))
    ∧ ∀ op : FetchOp,
        exec_op_failure_validation op
          ≠ .error (.apiBadRequest
              (chars "execTarget specified but no operator to compare with")) := by
  refine ⟨rfl, ?_⟩
  intro op h
  simp [exec_op_failure_validation, fetchAttr_execTarget] at h

/-! ## Metadata models (`src/landtable/state/models.py`) -/

/-- The field type literals of `LandtableField.type` (models.py lines
82-109). -/
inductive LandtableFieldType where
  | attachment | autonumber | barcode | string | boolean | count | created_at
  | created_by | currency | datetime | duration | email | modified_by
  | modified_time | linked | long_text | lookup | multi_select | number
  | percentage | phone_number | rating | short_text | select | url | user
  deriving DecidableEq, Repr

/-- Embeds `LandtableField` (models.py lines 66-137) restricted to the
members the verified operations consult; `replica_config` is untouched by
`resolve_columns`. -/
structure LandtableField where
  name : List Char
  id : Identifier
  type : LandtableFieldType
  deriving DecidableEq, Repr

/-- Python equality between a `str` member of a field set and an
`Identifier`, as exercised by the membership test `field.id in fields`
with `fields: set[str]` (models.py line 214): `str.__eq__` returns
`NotImplemented` for a non-string, and `Identifier.__eq__`
(identifiers.py lines 65-70) requires `isinstance(value, Identifier)`, so
the comparison is false for every string. -/
def pyStrEqIdentifier (_s : List Char) (_i : Identifier) : Bool := false

/-- Embeds `LandtableTable` (models.py lines 163-215) restricted to the
members `resolve_columns` consults. -/
structure LandtableTable where
  read_only : Bool
  name : List Char
  id : Identifier
  exposed_fields : List LandtableField
  deriving DecidableEq, Repr

/-- Embeds `LandtableTable.resolve_columns` (models.py lines 207-215): all
exposed fields when `fields` is `None`, otherwise those with
`field.name in fields or field.id in fields` — the second membership test
compares the `Identifier` object against the set's strings (see
`pyStrEqIdentifier`). -/
def LandtableTable.resolve_columns (t : LandtableTable)
    (fields : Option (List (List Char))) : List LandtableField :=
  match fields with
  | none => t.exposed_fields
  | some fs =>
    t.exposed_fields.filter
      (fun field => fs.contains field.name
        || fs.any (fun s => pyStrEqIdentifier s field.id))

/-- A concrete exposed field used by the `resolve_columns` evaluations. -/
def ageField : LandtableField := ⟨chars "age", ⟨chars "lfd", 0⟩, .number⟩

/-- A concrete table exposing only `ageField`. -/
def exampleTable : LandtableTable :=
  ⟨false, chars "people", ⟨chars "ltb", 1⟩, [ageField]⟩

/-- C5: the claim states that `resolve_columns` selects a field whose
canonical identifier string is in the given set. The `None` case and
selection by name behave as claimed, but the identifier clause never
matches: `field.id in fields` compares an `Identifier` object against
strings, which is always false, so selecting by the canonical
`lfd:<32 hex>` string returns the empty list instead of the field. -/
theorem c5_resolve_columns :
    Identifier.repr ageField.id
        = chars "lfd:00000000000000000000000000000000"
    ∧ exampleTable.resolve_columns
        (some [chars "lfd:00000000000000000000000000000000"]) = []
    ∧ exampleTable.resolve_columns none = [ageField]
    ∧ exampleTable.resolve_columns (some [chars "age"]) = [ageField] :=
  ⟨rfl, rfl, rfl, rfl⟩

/-! ## Metadata cache and watcher (`src/landtable/state/__init__.py`) -/

/-- A cache entry (state/__init__.py lines 36-43): monotonic creation time
(a natural number of time units here) and the cached value. -/
structure CachedEntry (α : Type) where
  created_at : Nat
  inner : α
  deriving DecidableEq, Repr

/-- Python's `str()` applied to a `bytes` value: the `b'...'` rendering.
This is exact for printable ASCII without quotes or backslashes, which
covers every cache key the watcher handles. -/
def pyStrOfBytes (b : List Char) : List Char :=
  'b' :: squoteC :: (b ++ [squoteC])

/-- Replace-or-append insertion into a dict modelled as an association
list. -/
def dictInsert {α : Type} (k : List Char) (v : α) :
    List (List Char × α) → List (List Char × α)
  | [] => [(k, v)]
  | (k0, v0) :: rest =>
    if k0 = k then (k, v) :: rest else (k0, v0) :: dictInsert k v rest

/-- The mutable cache state of `LandtableState` (state/__init__.py lines
46-56), restricted to the three caches and `meta`. The cached model
objects (workspace/table/database/meta) are represented by the raw event
value they were parsed from: no verified property inspects their fields. -/
structure LandtableStateModel where
  workspace_cache : List (List Char × CachedEntry (List Char))
  table_cache : List (List Char × CachedEntry (List Char))
  database_cache : List (List Char × CachedEntry (List Char))
  meta : Option (CachedEntry (List Char))
  deriving DecidableEq, Repr

/-- The fixed TTL `cache_expiry_time = 10` (state/__init__.py line 54). -/
def cache_expiry_time : Nat := 10

/-- Embeds one iteration of the watcher loop `LandtableState.task`
(state/__init__.py lines 71-105): the event key is split on `/`, the first
two segments dropped, and the matching cache slot replaced with a fresh
`created_at = now`. The cache key is computed as `str(workspace_id)` (and
analogously for databases and tables) where the path segment is a `bytes`
value, so the stored key is its `b'...'` rendering — see `pyStrOfBytes`.
Unknown paths are logged and ignored. -/
def task_event (st : LandtableStateModel) (now : Nat) (key value : List Char) :
    LandtableStateModel :=
  match (key.splitOn '/').drop 2 with
  | [x] =>
    if x = chars "meta" then { st with meta := some ⟨now, value⟩ } else st
  | [x, wsid, y] =>
    if x = chars "workspaces" ∧ y = chars "meta" then
      { st with workspace_cache :=
          dictInsert (pyStrOfBytes wsid) ⟨now, value⟩ st.workspace_cache }
    else st
  | [x, dbid] =>
    if x = chars "databases" then
      { st with database_cache :=
          dictInsert (pyStrOfBytes dbid) ⟨now, value⟩ st.database_cache }
    else st
  | [x, _, y, tid] =>
    if x = chars "workspaces" ∧ y = chars "tables" then
      { st with table_cache :=
          dictInsert (pyStrOfBytes tid) ⟨now, value⟩ st.table_cache }
    else st
  | _ => st

/-- Embeds the cache consultation at the head of
`LandtableState.fetch_workspace` (state/__init__.py lines 167-173):
`workspace_cache.get(str(workspace))` followed by the TTL check. `some`
is a cache hit returning the cached value without I/O; `none` falls
through to the alias and etcd lookups. -/
def fetch_workspace_cache_hit (st : LandtableStateModel) (now : Nat)
    (workspace : List Char) : Option (List Char) :=
  match st.workspace_cache.lookup workspace with
  | some entry =>
    if now - entry.created_at < cache_expiry_time then some entry.inner
    else none
  | none => none

/-- The initial cache state built by `LandtableState.__init__`
(state/__init__.py lines 57-69). -/
def emptyState : LandtableStateModel := ⟨[], [], [], none⟩

/-- C2: the claim states that a watcher event on
`/landtable/workspaces/{lwk-id}/meta` refreshes the cache entry under the
same stringified-identifier key that `fetch_workspace` consults, so a
lookup of that id within the TTL hits. The watcher does store the event's
value with a fresh `created_at` — but under `str(<bytes segment>)`, the
`b'lwk:...'` rendering, a key `fetch_workspace` never consults: one time
unit after the event, looking up `lwk:<32 zeros>` still misses, while the
`b'...'`-keyed entry holds the value. -/
theorem c2_watcher_cache_key :
    task_event emptyState 5
        (chars "/landtable/workspaces/lwk:00000000000000000000000000000000/meta")
        (chars "wsvalue")
      = { emptyState with workspace_cache :=
            [(pyStrOfBytes (chars "lwk:00000000000000000000000000000000"),
              ⟨5, chars "wsvalue"⟩)] }
    ∧ fetch_workspace_cache_hit
        (task_event emptyState 5
          (chars "/landtable/workspaces/lwk:00000000000000000000000000000000/meta")
          (chars "wsvalue"))
        6 (chars "lwk:00000000000000000000000000000000") = none
    ∧ fetch_workspace_cache_hit
        (task_event emptyState 5
          (chars "/landtable/workspaces/lwk:00000000000000000000000000000000/meta")
          (chars "wsvalue"))
        6 (pyStrOfBytes (chars "lwk:00000000000000000000000000000000"))
        = some (chars "wsvalue")
    ∧ pyStrOfBytes (chars "lwk:00000000000000000000000000000000")
        ≠ chars "lwk:00000000000000000000000000000000" :=
  ⟨rfl, rfl, rfl, by decide⟩
